import Mathlib

/-!
Verification of the element resolver and clicker of
src/webtraversallibrary/js/click_element.js.

The script receives a primary CSS selector (arguments[0]) and an optional
second argument (a stable identifier called wtl-uid).  It queries the
document for the first element matching the selector; on success it clicks
that element.  On failure it logs a diagnostic and, when a non-null second
argument was supplied, logs a fallback diagnostic and retries the lookup by
wtl-uid, clicking on success and logging a final diagnostic on failure.

Embedding choices:
* A document is a list of elements in document order.
* JavaScript values reaching the optional second argument are modelled by
  JSVal (null, undefined, or a string); the script initialises wtlUid to
  null and overwrites it only when arguments.length > 1, then tests
  wtlUid === null, which JSVal equality mirrors (undefined is not null).
* The CSS engine is a parameter mapping a selector string either to an
  engine-level failure (malformed selector) or to a predicate on elements;
  document.querySelector is first-match semantics over document order.
* Every observable step is recorded in an event trace: the primary query,
  the fallback query, console diagnostics, and click dispatches.  An
  engine-level failure is recorded by the thrown flag; it occurs before any
  console output, so the trace at that point holds only the attempted query.
* The click dispatcher (clickElement, defined in the external dom.js) may
  mutate the document through triggered handlers; it is a parameter of type
  Element to Doc to Doc and the run result carries the final document.
-/

namespace WTL

/-- A JavaScript value as far as the optional second argument is concerned:
null, undefined, or a locator string. -/
inductive JSVal where
  | null
  | undefined
  | str (s : String)
deriving DecidableEq, Repr

/-- A DOM element: an identity (to distinguish handles) and the optional
wtl-uid attribute attached by the snapshot pass. -/
structure Element where
  eid : Nat
  wtlUid : Option String
deriving DecidableEq, Repr

/-- A document: its elements in document order. -/
abbrev Doc := List Element

/-- The three console diagnostics the script can produce, with the data the
script interpolates into each message. -/
inductive Diag where
  | primaryFailed (selector : String)
  | fallbackAttempt (uid : JSVal)
  | fallbackFailed (uid : JSVal)
deriving DecidableEq, Repr

/-- The kind of a diagnostic, forgetting the interpolated data. -/
inductive DiagKind where
  | primaryFailed
  | fallbackAttempt
  | fallbackFailed
deriving DecidableEq, Repr, Fintype

/-- Kind of a diagnostic. -/
def Diag.kind : Diag → DiagKind
  | Diag.primaryFailed _ => DiagKind.primaryFailed
  | Diag.fallbackAttempt _ => DiagKind.fallbackAttempt
  | Diag.fallbackFailed _ => DiagKind.fallbackFailed

/-- One observable event of a run. -/
inductive Event where
  | queryPrimary (selector : String)
  | queryFallback (uid : JSVal)
  | click (e : Element)
  | diag (d : Diag)
deriving DecidableEq, Repr

/-- The CSS engine: a selector string is either malformed (engine-level
failure, which document.querySelector raises) or denotes a predicate on
elements. -/
abbrev Engine := String → Except Unit (Element → Bool)

/-- Modelled from the spec and the DOM standard: document.querySelector is a
browser primitive, not repository code.  It returns the first element of the
document, in document order, matching the selector, or none; a malformed
selector raises an engine-level failure. -/
def querySelector (engine : Engine) (doc : Doc) (sel : String) :
    Except Unit (Option Element) :=
  (engine sel).map fun p => doc.find? p

/-- Modelled from the spec: dom.js, which defines findElementByWtlUid, is not
under src.  The spec says the fallback lookup scans elements carrying the
stable-identifier attribute for the first one, in document order, whose value
equals the secondary locator.  Attribute values are strings, so a non-string
uid matches nothing. -/
def findElementByWtlUid (doc : Doc) (uid : JSVal) : Option Element :=
  doc.find? fun e =>
    match e.wtlUid, uid with
    | some s, JSVal.str t => s == t
    | _, _ => false

/-- The click dispatcher clickElement (defined in the external dom.js) may
mutate the document via triggered handlers; it is modelled as an arbitrary
document transformer indexed by the clicked element. -/
abbrev ClickFx := Element → Doc → Doc

/-- Result of one invocation: the event trace in emission order, the final
document, and whether an engine-level failure propagated to the caller. -/
structure RunResult where
  trace : List Event
  doc : Doc
  thrown : Bool
deriving DecidableEq, Repr

/-- The value of the local wtlUid after the arity check: null when no second
argument was supplied (arguments.length is not greater than 1), otherwise the
supplied value. -/
def suppliedUid : Option JSVal → JSVal
  | none => JSVal.null
  | some v => v

/-- The body of click_element.js.  selector is arguments[0]; secondArg is
some v when arguments.length > 1 with arguments[1] = v, and none otherwise. -/
def click_element (engine : Engine) (clickFx : ClickFx) (doc : Doc)
    (selector : String) (secondArg : Option JSVal) : RunResult :=
  let wtlUid := suppliedUid secondArg
  match querySelector engine doc selector with
  | Except.error _ =>
      ⟨[Event.queryPrimary selector], doc, true⟩
  | Except.ok (some element) =>
      ⟨[Event.queryPrimary selector, Event.click element],
       clickFx element doc, false⟩
  | Except.ok none =>
      if wtlUid = JSVal.null then
        ⟨[Event.queryPrimary selector,
          Event.diag (Diag.primaryFailed selector)], doc, false⟩
      else
        match findElementByWtlUid doc wtlUid with
        | some element =>
            ⟨[Event.queryPrimary selector,
              Event.diag (Diag.primaryFailed selector),
              Event.diag (Diag.fallbackAttempt wtlUid),
              Event.queryFallback wtlUid,
              Event.click element],
             clickFx element doc, false⟩
        | none =>
            ⟨[Event.queryPrimary selector,
              Event.diag (Diag.primaryFailed selector),
              Event.diag (Diag.fallbackAttempt wtlUid),
              Event.queryFallback wtlUid,
              Event.diag (Diag.fallbackFailed wtlUid)],
             doc, false⟩

/-- The diagnostics of a trace, in order. -/
def diagsOf (tr : List Event) : List Diag :=
  tr.filterMap fun ev =>
    match ev with
    | Event.diag d => some d
    | _ => none

/-- The clicked elements of a trace, in order. -/
def clicksOf (tr : List Event) : List Element :=
  tr.filterMap fun ev =>
    match ev with
    | Event.click e => some e
    | _ => none

/-- Whether an event is the primary query. -/
def isQueryPrimary : Event → Bool
  | Event.queryPrimary _ => true
  | _ => false

/-- Whether an event is the fallback query. -/
def isQueryFallback : Event → Bool
  | Event.queryFallback _ => true
  | _ => false

/-- Number of primary lookups in a trace. -/
def countQueryPrimary (tr : List Event) : Nat :=
  (tr.filter isQueryPrimary).length

/-- Number of fallback lookups in a trace. -/
def countQueryFallback (tr : List Event) : Nat :=
  (tr.filter isQueryFallback).length

/-- A diagnostic kind is emittable when some invocation emits a diagnostic of
that kind. -/
def EmittableKind (k : DiagKind) : Prop :=
  ∃ engine : Engine, ∃ clickFx : ClickFx, ∃ doc : Doc, ∃ sel : String,
    ∃ arg2 : Option JSVal,
      k ∈ (diagsOf (click_element engine clickFx doc sel arg2).trace).map
            Diag.kind

/-- e is the first element of doc, in document order, satisfying p. -/
def IsFirstMatch (doc : Doc) (p : Element → Bool) (e : Element) : Prop :=
  ∃ i, doc.get? i = some e ∧ p e = true ∧
    ∀ j e₂, j < i → doc.get? j = some e₂ → p e₂ = false

/-- A concrete engine for witnesses: the empty selector is malformed, and a
selector matches the element whose eid renders as the selector without the
leading hash. -/
def simpleEngine : Engine := fun sel =>
  if sel = "" then Except.error ()
  else Except.ok fun e => sel == "#" ++ toString e.eid

/-- A concrete click dispatcher for witnesses: a click with no handler
side effects. -/
def fx0 : ClickFx := fun _ d => d

/-- A concrete document for witnesses: one element tagged uid-42. -/
def doc0 : Doc := [⟨1, some "uid-42"⟩]

/-- A concrete predicate for the C9 witness. -/
def p1 : Element → Bool := fun e => e.eid == 1

/-- A concrete engine for the C9 witness: every selector denotes p1. -/
def engC9 : Engine := fun _ => Except.ok p1

/-- A concrete document with two elements matching p1. -/
def docC9 : Doc := [⟨1, none⟩, ⟨1, some "a"⟩]

/-- Branch lemma: an engine-level failure of the primary query propagates at
once: only the attempted query is in the trace, nothing was logged or
clicked, the document is untouched. -/
lemma run_engine_err (engine : Engine) (clickFx : ClickFx) (doc : Doc)
    (sel : String) (arg2 : Option JSVal)
    (h : querySelector engine doc sel = Except.error ()) :
    click_element engine clickFx doc sel arg2 =
      ⟨[Event.queryPrimary sel], doc, true⟩ := by
  simp only [click_element, h]

/-- Branch lemma: when the primary query resolves an element the script
clicks it and returns. -/
lemma run_primary_hit (engine : Engine) (clickFx : ClickFx) (doc : Doc)
    (sel : String) (arg2 : Option JSVal) (e : Element)
    (h : querySelector engine doc sel = Except.ok (some e)) :
    click_element engine clickFx doc sel arg2 =
      ⟨[Event.queryPrimary sel, Event.click e], clickFx e doc, false⟩ := by
  simp only [click_element, h]

/-- Branch lemma: primary failure with wtlUid left at (or set to) null logs
one diagnostic and returns. -/
lemma run_no_fallback (engine : Engine) (clickFx : ClickFx) (doc : Doc)
    (sel : String) (arg2 : Option JSVal)
    (h : querySelector engine doc sel = Except.ok none)
    (hu : suppliedUid arg2 = JSVal.null) :
    click_element engine clickFx doc sel arg2 =
      ⟨[Event.queryPrimary sel, Event.diag (Diag.primaryFailed sel)],
       doc, false⟩ := by
  simp only [click_element, h, hu, if_pos]

/-- Branch lemma: primary failure, non-null uid supplied, fallback lookup
resolves an element: two diagnostics, then the fallback query, then the
click. -/
lemma run_fallback_hit (engine : Engine) (clickFx : ClickFx) (doc : Doc)
    (sel : String) (v : JSVal) (e : Element)
    (h : querySelector engine doc sel = Except.ok none)
    (hv : v ≠ JSVal.null)
    (hf : findElementByWtlUid doc v = some e) :
    click_element engine clickFx doc sel (some v) =
      ⟨[Event.queryPrimary sel, Event.diag (Diag.primaryFailed sel),
        Event.diag (Diag.fallbackAttempt v), Event.queryFallback v,
        Event.click e], clickFx e doc, false⟩ := by
  simp only [click_element, h, suppliedUid, if_neg hv, hf]

/-- Branch lemma: primary failure, non-null uid supplied, fallback lookup
fails: three diagnostics and no click. -/
lemma run_fallback_miss (engine : Engine) (clickFx : ClickFx) (doc : Doc)
    (sel : String) (v : JSVal)
    (h : querySelector engine doc sel = Except.ok none)
    (hv : v ≠ JSVal.null)
    (hf : findElementByWtlUid doc v = none) :
    click_element engine clickFx doc sel (some v) =
      ⟨[Event.queryPrimary sel, Event.diag (Diag.primaryFailed sel),
        Event.diag (Diag.fallbackAttempt v), Event.queryFallback v,
        Event.diag (Diag.fallbackFailed v)], doc, false⟩ := by
  simp only [click_element, h, suppliedUid, if_neg hv, hf]

/-- C1: when the primary lookup fails, a secondary locator was supplied and
the secondary lookup resolves an element, exactly one click is dispatched, on
the element the secondary lookup resolved, and exactly two diagnostics
(primary-lookup-failed then fallback-attempted) are emitted, in that order,
before the click. -/
theorem C1_fallback_success (engine : Engine) (clickFx : ClickFx) (doc : Doc)
    (sel uid : String) (e : Element)
    (h : querySelector engine doc sel = Except.ok none)
    (hf : findElementByWtlUid doc (JSVal.str uid) = some e) :
    click_element engine clickFx doc sel (some (JSVal.str uid)) =
      ⟨[Event.queryPrimary sel, Event.diag (Diag.primaryFailed sel),
        Event.diag (Diag.fallbackAttempt (JSVal.str uid)),
        Event.queryFallback (JSVal.str uid), Event.click e],
       clickFx e doc, false⟩ ∧
    clicksOf
        (click_element engine clickFx doc sel (some (JSVal.str uid))).trace
      = [e] ∧
    diagsOf
        (click_element engine clickFx doc sel (some (JSVal.str uid))).trace
      = [Diag.primaryFailed sel, Diag.fallbackAttempt (JSVal.str uid)] := by
  have hrun := run_fallback_hit engine clickFx doc sel (JSVal.str uid) e h
    (by intro hc; cases hc) hf
  refine ⟨hrun, ?_, ?_⟩ <;> (rw [hrun]; try rfl)

/-- Witness for C1 on a concrete document. -/
theorem C1_witness :
    querySelector simpleEngine doc0 "#missing" = Except.ok none ∧
    findElementByWtlUid doc0 (JSVal.str "uid-42") = some ⟨1, some "uid-42"⟩ ∧
    clicksOf (click_element simpleEngine fx0 doc0 "#missing"
        (some (JSVal.str "uid-42"))).trace = [⟨1, some "uid-42"⟩] :=
  ⟨rfl, rfl,
    (C1_fallback_success simpleEngine fx0 doc0 "#missing" "uid-42"
      ⟨1, some "uid-42"⟩ rfl rfl).2.1⟩

/-- C2: when the primary lookup resolves an element, a click is dispatched on
that element, no diagnostic is emitted, and the run returns without
attempting the fallback lookup, whatever the second argument was. -/
theorem C2_primary_success (engine : Engine) (clickFx : ClickFx) (doc : Doc)
    (sel : String) (arg2 : Option JSVal) (e : Element)
    (h : querySelector engine doc sel = Except.ok (some e)) :
    click_element engine clickFx doc sel arg2 =
      ⟨[Event.queryPrimary sel, Event.click e], clickFx e doc, false⟩ ∧
    clicksOf (click_element engine clickFx doc sel arg2).trace = [e] ∧
    diagsOf (click_element engine clickFx doc sel arg2).trace = [] ∧
    countQueryFallback (click_element engine clickFx doc sel arg2).trace
      = 0 := by
  have hrun := run_primary_hit engine clickFx doc sel arg2 e h
  refine ⟨hrun, ?_, ?_, ?_⟩ <;> (rw [hrun]; try rfl)

/-- Witness for C2 on a concrete document. -/
theorem C2_witness :
    querySelector simpleEngine doc0 "#1" = Except.ok (some ⟨1, some "uid-42"⟩) ∧
    clicksOf (click_element simpleEngine fx0 doc0 "#1" none).trace
      = [⟨1, some "uid-42"⟩] :=
  ⟨rfl,
    (C2_primary_success simpleEngine fx0 doc0 "#1" none
      ⟨1, some "uid-42"⟩ rfl).2.1⟩

/-- C3: when the primary lookup fails and no secondary locator was supplied,
exactly one diagnostic (primary-lookup-failed) is emitted, no click is
dispatched, and the run returns normally without attempting the fallback
lookup. -/
theorem C3_total_failure_no_fallback (engine : Engine) (clickFx : ClickFx)
    (doc : Doc) (sel : String)
    (h : querySelector engine doc sel = Except.ok none) :
    click_element engine clickFx doc sel none =
      ⟨[Event.queryPrimary sel, Event.diag (Diag.primaryFailed sel)],
       doc, false⟩ ∧
    diagsOf (click_element engine clickFx doc sel none).trace
      = [Diag.primaryFailed sel] ∧
    clicksOf (click_element engine clickFx doc sel none).trace = [] ∧
    countQueryFallback (click_element engine clickFx doc sel none).trace
      = 0 ∧
    (click_element engine clickFx doc sel none).thrown = false := by
  have hrun := run_no_fallback engine clickFx doc sel none h rfl
  refine ⟨hrun, ?_, ?_, ?_, ?_⟩ <;> (rw [hrun]; try rfl)

/-- Witness for C3 on a concrete document. -/
theorem C3_witness :
    querySelector simpleEngine doc0 "#missing" = Except.ok none ∧
    diagsOf (click_element simpleEngine fx0 doc0 "#missing" none).trace
      = [Diag.primaryFailed "#missing"] :=
  ⟨rfl,
    (C3_total_failure_no_fallback simpleEngine fx0 doc0 "#missing" rfl).2.1⟩

/-- C4: when the primary lookup fails, a secondary locator was supplied and
the fallback lookup also fails, exactly three diagnostics
(primary-lookup-failed, fallback-attempted, fallback-failed) are emitted in
that order, no click is dispatched, and the run returns normally with no
engine-level failure propagated. -/
theorem C4_total_failure_with_fallback (engine : Engine) (clickFx : ClickFx)
    (doc : Doc) (sel uid : String)
    (h : querySelector engine doc sel = Except.ok none)
    (hf : findElementByWtlUid doc (JSVal.str uid) = none) :
    click_element engine clickFx doc sel (some (JSVal.str uid)) =
      ⟨[Event.queryPrimary sel, Event.diag (Diag.primaryFailed sel),
        Event.diag (Diag.fallbackAttempt (JSVal.str uid)),
        Event.queryFallback (JSVal.str uid),
        Event.diag (Diag.fallbackFailed (JSVal.str uid))], doc, false⟩ ∧
    diagsOf
        (click_element engine clickFx doc sel (some (JSVal.str uid))).trace
      = [Diag.primaryFailed sel, Diag.fallbackAttempt (JSVal.str uid),
         Diag.fallbackFailed (JSVal.str uid)] ∧
    clicksOf
        (click_element engine clickFx doc sel (some (JSVal.str uid))).trace
      = [] ∧
    (click_element engine clickFx doc sel (some (JSVal.str uid))).thrown
      = false := by
  have hrun := run_fallback_miss engine clickFx doc sel (JSVal.str uid) h
    (by intro hc; cases hc) hf
  refine ⟨hrun, ?_, ?_, ?_⟩ <;> (rw [hrun]; try rfl)

/-- Witness for C4 on a concrete document. -/
theorem C4_witness :
    querySelector simpleEngine doc0 "#missing" = Except.ok none ∧
    findElementByWtlUid doc0 (JSVal.str "uid-0") = none ∧
    diagsOf (click_element simpleEngine fx0 doc0 "#missing"
        (some (JSVal.str "uid-0"))).trace
      = [Diag.primaryFailed "#missing",
         Diag.fallbackAttempt (JSVal.str "uid-0"),
         Diag.fallbackFailed (JSVal.str "uid-0")] :=
  ⟨rfl, rfl,
    (C4_total_failure_with_fallback simpleEngine fx0 doc0 "#missing" "uid-0"
      rfl rfl).2.1⟩

/-- C7: a malformed primary selector raises an engine-level failure that
propagates uncaught to the invocation boundary; no diagnostic is emitted, no
fallback is attempted, no click is dispatched, and the document is
untouched. -/
theorem C7_malformed_selector (engine : Engine) (clickFx : ClickFx)
    (doc : Doc) (sel : String) (arg2 : Option JSVal)
    (h : engine sel = Except.error ()) :
    click_element engine clickFx doc sel arg2 =
      ⟨[Event.queryPrimary sel], doc, true⟩ ∧
    diagsOf (click_element engine clickFx doc sel arg2).trace = [] ∧
    clicksOf (click_element engine clickFx doc sel arg2).trace = [] ∧
    countQueryFallback (click_element engine clickFx doc sel arg2).trace
      = 0 ∧
    (click_element engine clickFx doc sel arg2).thrown = true := by
  have hq : querySelector engine doc sel = Except.error () := by
    simp [querySelector, h, Except.map]
  have hrun := run_engine_err engine clickFx doc sel arg2 hq
  refine ⟨hrun, ?_, ?_, ?_, ?_⟩ <;> (rw [hrun]; try rfl)

/-- Witness for C7: the empty selector is malformed for the concrete
engine. -/
theorem C7_witness :
    simpleEngine "" = Except.error () ∧
    (click_element simpleEngine fx0 doc0 "" none).thrown = true :=
  ⟨rfl, (C7_malformed_selector simpleEngine fx0 doc0 "" none rfl).2.2.2.2⟩

/-- C5 counterexample: supplying null as the second argument is supplying a
secondary-locator argument by arity, yet with the primary lookup failing the
fallback lookup is not attempted, because the script tests the local wtlUid
against the null sentinel.  So attempting the fallback is not equivalent to
the argument having been supplied. -/
theorem C5_counterexample :
    (some JSVal.null).isSome = true ∧
    querySelector simpleEngine doc0 "#missing" = Except.ok none ∧
    countQueryFallback (click_element simpleEngine fx0 doc0 "#missing"
        (some JSVal.null)).trace = 0 :=
  ⟨rfl, rfl, rfl⟩

/-- C5 amended: when the primary lookup fails, the fallback lookup is
attempted if and only if a secondary locator argument was supplied with a
value other than null; the script initialises wtlUid to null when the
argument is absent and skips the fallback whenever wtlUid equals null, so a
supplied null is treated as absence. -/
theorem C5_amended_fallback_iff_nonnull (engine : Engine) (clickFx : ClickFx)
    (doc : Doc) (sel : String) (arg2 : Option JSVal)
    (h : querySelector engine doc sel = Except.ok none) :
    countQueryFallback (click_element engine clickFx doc sel arg2).trace = 1
      ↔ ∃ v, arg2 = some v ∧ v ≠ JSVal.null := by
  cases arg2 with
  | none =>
      rw [run_no_fallback engine clickFx doc sel none h rfl]
      simp [countQueryFallback, isQueryFallback]
  | some v =>
      by_cases hv : v = JSVal.null
      · subst hv
        rw [run_no_fallback engine clickFx doc sel (some JSVal.null) h rfl]
        simp [countQueryFallback, isQueryFallback]
      · cases hfe : findElementByWtlUid doc v with
        | some e =>
            rw [run_fallback_hit engine clickFx doc sel v e h hv hfe]
            simp [countQueryFallback, isQueryFallback, hv]
        | none =>
            rw [run_fallback_miss engine clickFx doc sel v h hv hfe]
            simp [countQueryFallback, isQueryFallback, hv]

/-- Witness for the amended C5 on a concrete document. -/
theorem C5_witness :
    querySelector simpleEngine doc0 "#missing" = Except.ok none ∧
    (countQueryFallback (click_element simpleEngine fx0 doc0 "#missing"
        (some (JSVal.str "uid-42"))).trace = 1
      ↔ ∃ v, (some (JSVal.str "uid-42") : Option JSVal) = some v ∧
          v ≠ JSVal.null) :=
  ⟨rfl, C5_amended_fallback_iff_nonnull simpleEngine fx0 doc0 "#missing"
    (some (JSVal.str "uid-42")) rfl⟩

/-- C6 counterexample: there are no four pairwise distinct emittable
diagnostic kinds; the script has only three diagnostic call sites and three
diagnostic kinds in total, so the observability channel cannot carry four
distinct diagnostic events. -/
theorem C6_counterexample :
    ¬ ∃ k₁ k₂ k₃ k₄ : DiagKind,
        (k₁ ≠ k₂ ∧ k₁ ≠ k₃ ∧ k₁ ≠ k₄ ∧ k₂ ≠ k₃ ∧ k₂ ≠ k₄ ∧ k₃ ≠ k₄) ∧
        EmittableKind k₁ ∧ EmittableKind k₂ ∧ EmittableKind k₃ ∧
        EmittableKind k₄ := by
  rintro ⟨k₁, k₂, k₃, k₄, hne, -, -, -, -⟩
  have hdec : ∀ a b c d : DiagKind,
      ¬(a ≠ b ∧ a ≠ c ∧ a ≠ d ∧ b ≠ c ∧ b ≠ d ∧ c ≠ d) := by decide
  exact hdec k₁ k₂ k₃ k₄ hne

/-- C6 amended: the observability channel is used for exactly three possible
diagnostic events; each of the three kinds (primary lookup failed, attempting
fallback lookup, fallback lookup failed) is emittable by some invocation, and
every diagnostic any invocation emits is of one of these three kinds. -/
theorem C6_amended_three_kinds :
    Fintype.card DiagKind = 3 ∧
    (∀ k : DiagKind, EmittableKind k) ∧
    (∀ (engine : Engine) (clickFx : ClickFx) (doc : Doc) (sel : String)
        (arg2 : Option JSVal) (d : Diag),
        d ∈ diagsOf (click_element engine clickFx doc sel arg2).trace →
        Diag.kind d = DiagKind.primaryFailed ∨
        Diag.kind d = DiagKind.fallbackAttempt ∨
        Diag.kind d = DiagKind.fallbackFailed) := by
  refine ⟨by decide, ?_, ?_⟩
  · intro k
    exact ⟨simpleEngine, fx0, [], "#missing", some (JSVal.str "u"),
      by cases k <;> decide⟩
  · intro engine clickFx doc sel arg2 d _
    cases d
    · exact Or.inl rfl
    · exact Or.inr (Or.inl rfl)
    · exact Or.inr (Or.inr rfl)

/-- Witness for the amended C6 at a concrete diagnostic of a concrete run. -/
theorem C6_amended_witness :
    Diag.primaryFailed "#missing" ∈
      diagsOf (click_element simpleEngine fx0 doc0 "#missing" none).trace ∧
    (Diag.kind (Diag.primaryFailed "#missing") = DiagKind.primaryFailed ∨
     Diag.kind (Diag.primaryFailed "#missing") = DiagKind.fallbackAttempt ∨
     Diag.kind (Diag.primaryFailed "#missing") = DiagKind.fallbackFailed) :=
  ⟨by decide, C6_amended_three_kinds.2.2 simpleEngine fx0 doc0 "#missing" none
    (Diag.primaryFailed "#missing") (by decide)⟩

/-- C8: every invocation performs at most one primary lookup, at most one
fallback lookup, dispatches at most one click, and never performs the
fallback lookup when the primary lookup succeeded. -/
theorem C8_single_attempt (engine : Engine) (clickFx : ClickFx) (doc : Doc)
    (sel : String) (arg2 : Option JSVal) :
    countQueryPrimary (click_element engine clickFx doc sel arg2).trace ≤ 1 ∧
    countQueryFallback (click_element engine clickFx doc sel arg2).trace
      ≤ 1 ∧
    (clicksOf (click_element engine clickFx doc sel arg2).trace).length
      ≤ 1 ∧
    (∀ e, querySelector engine doc sel = Except.ok (some e) →
      countQueryFallback (click_element engine clickFx doc sel arg2).trace
        = 0) := by
  cases hq : querySelector engine doc sel with
  | error u =>
      cases u
      rw [run_engine_err engine clickFx doc sel arg2 hq]
      exact ⟨Nat.le_refl 1, Nat.zero_le 1, Nat.zero_le 1,
        fun e he => by simp [hq] at he⟩
  | ok oe =>
      cases oe with
      | some e₀ =>
          rw [run_primary_hit engine clickFx doc sel arg2 e₀ hq]
          exact ⟨Nat.le_refl 1, Nat.zero_le 1, Nat.le_refl 1,
            fun e he => rfl⟩
      | none =>
          cases arg2 with
          | none =>
              rw [run_no_fallback engine clickFx doc sel none hq rfl]
              exact ⟨Nat.le_refl 1, Nat.zero_le 1, Nat.zero_le 1,
                fun e he => by simp at he⟩
          | some v =>
              by_cases hv : v = JSVal.null
              · subst hv
                rw [run_no_fallback engine clickFx doc sel
                  (some JSVal.null) hq rfl]
                exact ⟨Nat.le_refl 1, Nat.zero_le 1, Nat.zero_le 1,
                  fun e he => by simp at he⟩
              · cases hfe : findElementByWtlUid doc v with
                | some e₁ =>
                    rw [run_fallback_hit engine clickFx doc sel v e₁ hq hv
                      hfe]
                    exact ⟨Nat.le_refl 1, Nat.le_refl 1, Nat.le_refl 1,
                      fun e he => by simp at he⟩
                | none =>
                    rw [run_fallback_miss engine clickFx doc sel v hq hv hfe]
                    exact ⟨Nat.le_refl 1, Nat.le_refl 1, Nat.zero_le 1,
                      fun e he => by simp at he⟩

/-- Witness for C8 on a concrete run whose primary lookup succeeds. -/
theorem C8_witness :
    querySelector simpleEngine doc0 "#1"
      = Except.ok (some ⟨1, some "uid-42"⟩) ∧
    countQueryFallback (click_element simpleEngine fx0 doc0 "#1"
        (some (JSVal.str "uid-42"))).trace = 0 :=
  ⟨rfl, (C8_single_attempt simpleEngine fx0 doc0 "#1"
      (some (JSVal.str "uid-42"))).2.2.2 ⟨1, some "uid-42"⟩ rfl⟩

/-- First-match characterisation of list search: a successful find? returns
the element at the first position whose entry satisfies the predicate. -/
lemma find?_isFirstMatch (doc : Doc) (p : Element → Bool) :
    ∀ e : Element, doc.find? p = some e → IsFirstMatch doc p e := by
  induction doc with
  | nil =>
      intro e h
      simp at h
  | cons a t ih =>
      intro e h
      cases hpa : p a with
      | true =>
          rw [List.find?_cons_of_pos _ hpa] at h
          injection h with h
          subst h
          exact ⟨0, rfl, hpa, fun j e₂ hj _ => absurd hj (Nat.not_lt_zero j)⟩
      | false =>
          rw [List.find?_cons_of_neg _ (by simp [hpa])] at h
          obtain ⟨i, hi, hpe, hmin⟩ := ih e h
          refine ⟨i + 1, by simpa using hi, hpe, ?_⟩
          intro j e₂ hj hje
          cases j with
          | zero =>
              have : e₂ = a := by simpa using hje.symm
              rw [this]
              exact hpa
          | succ j₂ =>
              exact hmin j₂ e₂ (Nat.lt_of_succ_lt_succ hj)
                (by simpa using hje)

/-- When at least two entries satisfy the predicate the search succeeds. -/
lemma find?_of_two_matches (doc : Doc) (p : Element → Bool)
    (h2 : 2 ≤ (doc.filter p).length) : ∃ e, doc.find? p = some e := by
  cases hfe : doc.find? p with
  | some e => exact ⟨e, rfl⟩
  | none =>
      exfalso
      have hall := List.find?_eq_none.mp hfe
      have hnil : doc.filter p = [] :=
        List.filter_eq_nil_iff.mpr fun a ha => hall a ha
      rw [hnil] at h2
      exact absurd h2 (by decide)

/-- C9: on a document with two or more elements matching the primary
selector, the click lands on the first matching element in document order,
and a repeated invocation on the unchanged document yields the identical
run. -/
theorem C9_first_match_determinism (engine : Engine) (clickFx : ClickFx)
    (doc : Doc) (sel : String) (p : Element → Bool) (arg2 : Option JSVal)
    (hp : engine sel = Except.ok p)
    (h2 : 2 ≤ (doc.filter p).length) :
    ∃ e, IsFirstMatch doc p e ∧
      clicksOf (click_element engine clickFx doc sel arg2).trace = [e] ∧
      click_element engine clickFx doc sel arg2 =
        click_element engine clickFx doc sel arg2 := by
  obtain ⟨e, hfe⟩ := find?_of_two_matches doc p h2
  have hq : querySelector engine doc sel = Except.ok (some e) := by
    simp [querySelector, hp, Except.map, hfe]
  refine ⟨e, find?_isFirstMatch doc p e hfe, ?_, rfl⟩
  rw [run_primary_hit engine clickFx doc sel arg2 e hq]
  rfl

/-- Witness for C9 on a concrete document with two matching elements. -/
theorem C9_witness :
    engC9 "#x" = Except.ok p1 ∧
    2 ≤ (docC9.filter p1).length ∧
    ∃ e, IsFirstMatch docC9 p1 e ∧
      clicksOf (click_element engC9 fx0 docC9 "#x" none).trace = [e] ∧
      click_element engC9 fx0 docC9 "#x" none =
        click_element engC9 fx0 docC9 "#x" none :=
  ⟨rfl, by decide,
    C9_first_match_determinism engC9 fx0 docC9 "#x" p1 none rfl (by decide)⟩

/-- C10: the resolver itself never rewrites the document: the final document
is exactly the initial one transformed by the click dispatcher at the clicked
elements of the trace, and in particular an invocation that clicks nothing
leaves the document unchanged. -/
theorem C10_no_mutation_beyond_click (engine : Engine) (clickFx : ClickFx)
    (doc : Doc) (sel : String) (arg2 : Option JSVal) :
    (click_element engine clickFx doc sel arg2).doc =
      (clicksOf (click_element engine clickFx doc sel arg2).trace).foldl
        (fun d e => clickFx e d) doc ∧
    (clicksOf (click_element engine clickFx doc sel arg2).trace = [] →
      (click_element engine clickFx doc sel arg2).doc = doc) := by
  cases hq : querySelector engine doc sel with
  | error u =>
      cases u
      rw [run_engine_err engine clickFx doc sel arg2 hq]
      exact ⟨rfl, fun _ => rfl⟩
  | ok oe =>
      cases oe with
      | some e₀ =>
          rw [run_primary_hit engine clickFx doc sel arg2 e₀ hq]
          exact ⟨rfl, fun hc => absurd hc (by simp [clicksOf])⟩
      | none =>
          cases arg2 with
          | none =>
              rw [run_no_fallback engine clickFx doc sel none hq rfl]
              exact ⟨rfl, fun _ => rfl⟩
          | some v =>
              by_cases hv : v = JSVal.null
              · subst hv
                rw [run_no_fallback engine clickFx doc sel
                  (some JSVal.null) hq rfl]
                exact ⟨rfl, fun _ => rfl⟩
              · cases hfe : findElementByWtlUid doc v with
                | some e₁ =>
                    rw [run_fallback_hit engine clickFx doc sel v e₁ hq hv
                      hfe]
                    exact ⟨rfl, fun hc => absurd hc (by simp [clicksOf])⟩
                | none =>
                    rw [run_fallback_miss engine clickFx doc sel v hq hv hfe]
                    exact ⟨rfl, fun _ => rfl⟩

/-- Witness for C10 on a concrete clickless run. -/
theorem C10_witness :
    clicksOf (click_element simpleEngine fx0 doc0 "#missing" none).trace
      = [] ∧
    (click_element simpleEngine fx0 doc0 "#missing" none).doc = doc0 :=
  ⟨rfl,
    (C10_no_mutation_beyond_click simpleEngine fx0 doc0 "#missing" none).2
      rfl⟩

end WTL
